import Mathlib

/-!
Verification of the bf-app book service and its Postgres-backed repository.

The Go sources embedded here:
  * `server/internal/domain/services/errors.go` and
    `server/internal/domain/repositories/errors.go` — sentinel error values,
    modelled by the constructors of `GoErr`; `fmt.Errorf("...: %w", err)`
    wrapping is modelled by `GoErr.wrap`, and Go's `errors.Is` by `errorsIs`.
  * `server/internal/infrastructure/db/postgres/book_repository.go` — the SQL
    statements are embedded as pure functions over an explicit table state
    `DB` (a list of rows plus the serial counter); `NOW()` is passed in as an
    integer parameter.
  * `server/internal/domain/services/book_service.go` — the service is
    parametric in a `repositories.BookRepository` interface value, embedded
    as a record of functions `RepoAPI σ` over an abstract state `σ`.
-/

namespace BfApp

/-- Go error values.  Each sentinel created by `errors.New` in
`repositories/errors.go` and `services/errors.go` is one constructor;
`wrap e` is `fmt.Errorf("...: %w", e)` (the message text does not affect
`errors.Is`, so it is not carried); `plain s` is an unwrapped error such as
`errors.New(s)` or a driver failure rendered with `%v`/`%s`. -/
inductive GoErr where
  | bookNotFound      -- repositories.ErrBookNotFound
  | duplicateISBN     -- repositories.ErrDuplicateISBN
  | invalidData       -- repositories.ErrInvalidData
  | invalidReference  -- repositories.ErrInvalidReference
  | notFound          -- services.ErrNotFound
  | invalidInput      -- services.ErrInvalidInput
  | permissionDenied  -- services.ErrPermissionDenied
  | conflict          -- services.ErrConflict
  | plain (msg : String)
  | wrap (inner : GoErr)
deriving Repr, DecidableEq

/-- Go `errors.Is err target`: true when `err` equals `target` or some error
in its `%w` unwrap chain does.  The sentinels are distinct `errors.New`
values, so equality of non-`wrap` errors is constructor equality. -/
def errorsIs : GoErr → GoErr → Bool
  | GoErr.wrap inner, target => (GoErr.wrap inner == target) || errorsIs inner target
  | e, target => e == target

/-- `models.Book` (`server/internal/domain/models/books.go`).  Timestamps are
integers (seconds); `Published` is kept as its `YYYY-MM-DD` string (the date
column round-trips through `Format("2006-01-02")` unchanged for well-formed
dates). -/
structure Book where
  id : Int
  title : String
  author : String
  published : String
  isbn : String
  pages : Int
  createdAt : Int
  updatedAt : Int
deriving Repr, DecidableEq

/-- One persisted row of the `books` table: the `Book` columns plus the
nullable `deleted_at` column of the schema (§6 of the design: one table with
the Book attributes plus a nullable `deleted_at`). -/
structure Row where
  id : Int
  title : String
  author : String
  published : String
  isbn : String
  pages : Int
  createdAt : Int
  updatedAt : Int
  deletedAt : Option Int
deriving Repr, DecidableEq

/-- Projection of a row onto the scanned `models.Book` columns
(`SELECT id, title, author, published, isbn, pages, created_at, updated_at`). -/
def Row.toBook (r : Row) : Book :=
  { id := r.id, title := r.title, author := r.author, published := r.published,
    isbn := r.isbn, pages := r.pages, createdAt := r.createdAt, updatedAt := r.updatedAt }

/-- The `books` table: its rows and the next value of the serial `id`
sequence. -/
structure DB where
  rows : List Row
  nextId : Int
deriving Repr, DecidableEq

/-- Well-formedness of a table state: the serial sequence starts at 1 and
every existing row's id was drawn from the sequence earlier. -/
def DB.WF (db : DB) : Prop :=
  1 ≤ db.nextId ∧ ∀ r ∈ db.rows, r.id < db.nextId

instance (db : DB) : Decidable db.WF := by
  unfold DB.WF; infer_instance

namespace Postgres

/-! Embedding of `server/internal/infrastructure/db/postgres/book_repository.go`
(the current repository implementation wired up by the server). -/

/-- `BookRepository.CreateBook`: `INSERT INTO books (...) VALUES (..., NOW(),
NOW()) RETURNING id, created_at, updated_at`.  The schema's unique index on
`isbn` is scoped to live rows; a violation is Postgres error 23505, which the
Go code maps to `repositories.ErrDuplicateISBN`.  On success the generated
id and timestamps are scanned back into the book. -/
def insertedRow (db : DB) (now : Int) (b : Book) : Row :=
  { id := db.nextId, title := b.title, author := b.author,
    published := b.published, isbn := b.isbn, pages := b.pages,
    createdAt := now, updatedAt := now, deletedAt := none }

def CreateBook (db : DB) (now : Int) (b : Book) : Except GoErr (DB × Book) :=
  if db.rows.any (fun r => r.isbn == b.isbn && r.deletedAt == none) then
    .error .duplicateISBN
  else
    .ok ({ rows := db.rows ++ [insertedRow db now b], nextId := db.nextId + 1 },
         (insertedRow db now b).toBook)

/-- `BookRepository.GetByBookID`: `SELECT ... FROM books WHERE id = $1`.
Note: the statement has no `deleted_at IS NULL` filter.  Zero rows
(`pgx.ErrNoRows`) maps to `repositories.ErrBookNotFound`. -/
def GetByBookID (db : DB) (id : Int) : Except GoErr Book :=
  match db.rows.find? (fun r => r.id == id) with
  | none => .error .bookNotFound
  | some r => .ok r.toBook

/-- Stable insertion into a list already sorted by `created_at` descending:
rows with greater-or-equal `created_at` stay in front. -/
def insertByCreatedDesc (r : Row) : List Row → List Row
  | [] => [r]
  | x :: xs =>
    if r.createdAt ≤ x.createdAt then x :: insertByCreatedDesc r xs
    else r :: x :: xs

/-- `ORDER BY created_at DESC` over the table's natural row order. -/
def sortByCreatedDesc : List Row → List Row
  | [] => []
  | x :: xs => insertByCreatedDesc x (sortByCreatedDesc xs)

/-- `BookRepository.FetchAllBook`: `SELECT COUNT(*) FROM books` (no
`deleted_at` filter) followed by `SELECT ... FROM books ORDER BY created_at
DESC LIMIT $1 OFFSET $2` with `offset = (page-1)*pageSize`. -/
def FetchAllBook (db : DB) (page pageSize : Int) : Except GoErr (List Book × Int) :=
  let total : Int := db.rows.length
  let offset := (page - 1) * pageSize
  let pageRows := ((sortByCreatedDesc db.rows).drop offset.toNat).take pageSize.toNat
  .ok (pageRows.map Row.toBook, total)

/-- `BookRepository.UpdateBook`: `UPDATE books SET title=$1, author=$2,
published=$3, isbn=$4, pages=$5, updated_at=NOW() WHERE id = $6 RETURNING
updated_at` — no `deleted_at IS NULL` filter.  Zero rows maps to
`repositories.ErrBookNotFound`; on success the fresh `updated_at` is scanned
back into the book. -/
def UpdateBook (db : DB) (now : Int) (b : Book) : Except GoErr (DB × Book) :=
  if db.rows.any (fun r => r.id == b.id) then
    .ok ({ db with rows := db.rows.map (fun r =>
            if r.id == b.id then
              { r with title := b.title, author := b.author,
                       published := b.published, isbn := b.isbn,
                       pages := b.pages, updatedAt := now }
            else r) },
         { b with updatedAt := now })
  else .error .bookNotFound

/-- `BookRepository.DeleteBook`: inside a transaction, `DELETE FROM books
WHERE id = $1`; when `RowsAffected() == 0` the deferred rollback fires and
`repositories.ErrBookNotFound` is returned (table unchanged), otherwise the
transaction commits with the matching rows physically removed. -/
def DeleteBook (db : DB) (id : Int) : Except GoErr DB :=
  let affected := (db.rows.filter (fun r => r.id == id)).length
  if affected == 0 then .error .bookNotFound
  else .ok { db with rows := db.rows.filter (fun r => !(r.id == id)) }

end Postgres

namespace Services

/-! Embedding of `server/internal/domain/services/book_service.go`.  The
service holds a `repositories.BookRepository` interface value; here that
interface is the record `RepoAPI σ`, with the repository's mutable store
made explicit as a state of type `σ` that the mutating methods thread. -/

/-- `models.BookCreateRequest`. -/
structure BookCreateRequest where
  title : String
  author : String
  published : String
  isbn : String
  pages : Int
deriving Repr, DecidableEq

/-- `models.BookUpdateRequest` (all fields optional; an omitted field arrives
as its Go zero value: `""` for strings, `0` for `Pages`). -/
structure BookUpdateRequest where
  title : String
  author : String
  published : String
  isbn : String
  pages : Int
deriving Repr, DecidableEq

/-- The `repositories.BookRepository` interface
(`server/internal/domain/repositories/book_repository.go`), with the store
state `σ` passed and returned explicitly instead of being mutated. -/
structure RepoAPI (σ : Type) where
  createBook : σ → Book → Except GoErr (σ × Book)
  getByBookID : σ → Int → Except GoErr Book
  fetchAllBook : σ → Int → Int → Except GoErr (List Book × Int)
  updateBook : σ → Book → Except GoErr (σ × Book)
  deleteBook : σ → Int → Except GoErr σ

/-- The Postgres implementation of the interface, at a fixed statement time
`now` (the value `NOW()` evaluates to). -/
def pgRepo (now : Int) : RepoAPI DB :=
  { createBook := fun db b => Postgres.CreateBook db now b,
    getByBookID := Postgres.GetByBookID,
    fetchAllBook := Postgres.FetchAllBook,
    updateBook := fun db b => Postgres.UpdateBook db now b,
    deleteBook := Postgres.DeleteBook }

/-- `validateBookCreateRequest`: title required and at most 200 long.
(Go measures `len(req.Title)` in bytes; for the inputs considered here the
character count agrees.) -/
def validateBookCreateRequest (req : BookCreateRequest) : Option String :=
  if req.title == "" then some "title is required"
  else if req.title.length > 200 then some "title too long"
  else none

/-- `validateBookUpdateRequest`: only the title is checked, and only when
supplied. -/
def validateBookUpdateRequest (req : BookUpdateRequest) : Option String :=
  if req.title != "" && req.title.length > 200 then some "title too long"
  else none

/-- The `book := &models.Book{...}` literal built from the request (id and
timestamps at their zero values, to be assigned by storage). -/
def bookOfCreateRequest (req : BookCreateRequest) : Book :=
  { id := 0, title := req.title, author := req.author,
    published := req.published, isbn := req.isbn, pages := req.pages,
    createdAt := 0, updatedAt := 0 }

/-- `BookService.CreateBook`: validation failures return
`fmt.Errorf("%w: %v", ErrInvalidInput, err)`; `pages < 5` returns
`fmt.Errorf("%w: ...", ErrInvalidInput)`; a repository failure returns
`fmt.Errorf("repository error: %w", err)`. -/
def svcCreateBook (repo : RepoAPI σ) (st : σ) (req : BookCreateRequest) :
    Except GoErr (σ × Book) :=
  match validateBookCreateRequest req with
  | some _ => .error (.wrap .invalidInput)
  | none =>
    if (bookOfCreateRequest req).pages < 5 then .error (.wrap .invalidInput)
    else
      match repo.createBook st (bookOfCreateRequest req) with
      | .error e => .error (.wrap e)
      | .ok r => .ok r

/-- `BookService.GetByBookID`: an id `≤ 0` returns
`fmt.Errorf("%w: invalid book ID", repositories.ErrInvalidData)` (the
repository sentinel, not `services.ErrInvalidInput`); a repository
`ErrBookNotFound` becomes `services.ErrNotFound`; any other repository error
is wrapped. -/
def svcGetByBookID (repo : RepoAPI σ) (st : σ) (id : Int) : Except GoErr Book :=
  if id ≤ 0 then .error (.wrap .invalidData)
  else
    match repo.getByBookID st id with
    | .error e =>
      if errorsIs e .bookNotFound then .error .notFound
      else .error (.wrap e)
    | .ok b => .ok b

/-- `if page < 1 { page = 1 }` in `BookService.FetchAllBook`. -/
def clampPage (page : Int) : Int := if page < 1 then 1 else page

/-- `if pageSize < 1 || pageSize > 100 { pageSize = 20 }` in
`BookService.FetchAllBook`. -/
def clampPageSize (pageSize : Int) : Int :=
  if pageSize < 1 || pageSize > 100 then 20 else pageSize

/-- `BookService.FetchAllBook`: clamps the pagination arguments, then
forwards; a repository failure is wrapped. -/
def svcFetchAllBook (repo : RepoAPI σ) (st : σ) (page pageSize : Int) :
    Except GoErr (List Book × Int) :=
  match repo.fetchAllBook st (clampPage page) (clampPageSize pageSize) with
  | .error e => .error (.wrap e)
  | .ok r => .ok r

/-- The merge block of `BookService.UpdateBook`, verbatim from the source:
non-empty `Title`/`Author`/`ISBN` overwrite, `Published` is never touched,
and the pages guard is `if req.Pages <= 0 { book.Pages = req.Pages }`. -/
def mergeBook (book : Book) (req : BookUpdateRequest) : Book :=
  let b := if req.title != "" then { book with title := req.title } else book
  let b := if req.author != "" then { b with author := req.author } else b
  let b := if req.isbn != "" then { b with isbn := req.isbn } else b
  let b := if req.pages ≤ 0 then { b with pages := req.pages } else b
  b

/-- `BookService.UpdateBook`: id guard (`ErrInvalidInput`), update-request
validation, load via `GetByBookID` (`ErrBookNotFound` → `ErrNotFound`),
merge, persist via `UpdateBook` (failure wrapped). -/
def svcUpdateBook (repo : RepoAPI σ) (st : σ) (id : Int)
    (req : BookUpdateRequest) : Except GoErr (σ × Book) :=
  if id ≤ 0 then .error (.wrap .invalidInput)
  else
    match validateBookUpdateRequest req with
    | some _ => .error (.wrap .invalidInput)
    | none =>
      match repo.getByBookID st id with
      | .error e =>
        if errorsIs e .bookNotFound then .error .notFound
        else .error (.wrap e)
      | .ok book =>
        match repo.updateBook st (mergeBook book req) with
        | .error e => .error (.wrap e)
        | .ok r => .ok r

/-- `BookService.DeleteBook`: id guard (`ErrInvalidInput`); existence check
via `GetByBookID` (`ErrBookNotFound` → `ErrNotFound`); then the repository
delete, whose failure — `ErrBookNotFound` included — is only ever wrapped as
`fmt.Errorf("repository error: %w", err)`. -/
def svcDeleteBook (repo : RepoAPI σ) (st : σ) (id : Int) : Except GoErr σ :=
  if id ≤ 0 then .error (.wrap .invalidInput)
  else
    match repo.getByBookID st id with
    | .error e =>
      if errorsIs e .bookNotFound then .error .notFound
      else .error (.wrap e)
    | .ok _ =>
      match repo.deleteBook st id with
      | .error e => .error (.wrap e)
      | .ok st2 => .ok st2

end Services

open Services

/-! Concrete table states used to evaluate the embedded code. -/

/-- A live row (`deleted_at IS NULL`). -/
def duneRow : Row :=
  { id := 1, title := "Dune", author := "Herbert", published := "1965-08-01",
    isbn := "978-0-441-01359-3", pages := 412, createdAt := 10, updatedAt := 10,
    deletedAt := none }

/-- A table holding the single live row `duneRow`. -/
def db1 : DB := { rows := [duneRow], nextId := 2 }

/-- A soft-deleted row: `deleted_at` was set to 50. -/
def ghostRow : Row :=
  { id := 2, title := "Ghost", author := "Anon", published := "2020-01-01",
    isbn := "978-0-13-468599-1", pages := 99, createdAt := 20, updatedAt := 20,
    deletedAt := some 50 }

/-- A table holding one live row and one soft-deleted row. -/
def db2 : DB := { rows := [duneRow, ghostRow], nextId := 3 }

/-- An update request supplying only a new title; every other field is at its
Go zero value (`""`, `0`), i.e. omitted. -/
def titleOnlyReq : BookUpdateRequest :=
  { title := "New Title", author := "", published := "", isbn := "", pages := 0 }

/-- C1.  The claim says `DeleteBook` soft-deletes: sets `deleted_at` on the
live row and retains it, with no hard-delete path in the program.  The
repository actually runs `DELETE FROM books WHERE id = $1`: on the table
holding only the live `duneRow`, deleting id 1 succeeds and leaves an empty
table — the row is physically removed, not retained with `deleted_at` set.
(The zero-rows-affected half of the claim does hold: deleting an absent id
rolls back and yields `ErrBookNotFound`.) -/
theorem deleteBook_removes_row_hard_delete :
    Postgres.DeleteBook db1 1 = .ok { rows := [], nextId := 2 } ∧
    duneRow.deletedAt = none ∧
    Postgres.DeleteBook db1 2 = .error .bookNotFound :=
  ⟨rfl, rfl, rfl⟩

/-- C2.  The claim says a record with non-null `deleted_at` is never returned
by reads or lists and rejects updates as not-found.  The repository's
queries carry no `deleted_at IS NULL` filter: on `db2`, whose row id 2 has
`deleted_at = 50`, `GetByBookID 2` returns that record, `FetchAllBook`
returns it in the page and counts it in the total (2, not 1), and
`UpdateBook` against it succeeds. -/
theorem deleted_record_visible_to_reads_and_updates :
    ghostRow.deletedAt = some 50 ∧
    Postgres.GetByBookID db2 2 = .ok ghostRow.toBook ∧
    Postgres.FetchAllBook db2 1 20 = .ok ([ghostRow.toBook, duneRow.toBook], 2) ∧
    Postgres.UpdateBook db2 99 { ghostRow.toBook with title := "Revived" } =
      .ok ({ rows := [duneRow, { ghostRow with title := "Revived", updatedAt := 99 }],
             nextId := 3 },
           { ghostRow.toBook with title := "Revived", updatedAt := 99 }) :=
  ⟨rfl, rfl, rfl, rfl⟩

/-- C3.  The claim says an update supplying only a new title changes only
`title` and `updated_at`.  The merge block's pages guard is inverted
(`if req.Pages <= 0 { book.Pages = req.Pages }`), so the omitted `pages`
field (zero value 0) overwrites the stored 412: updating `duneRow` with
`titleOnlyReq` through the service over the Postgres repository persists
`pages = 0`. -/
theorem updateBook_title_only_zeroes_pages :
    duneRow.pages = 412 ∧
    svcUpdateBook (pgRepo 99) db1 1 titleOnlyReq =
      .ok ({ rows := [{ duneRow with title := "New Title", pages := 0, updatedAt := 99 }],
             nextId := 2 },
           { duneRow.toBook with title := "New Title", pages := 0, updatedAt := 99 }) :=
  ⟨rfl, rfl⟩

/-- C5.  The claim says a storage unique-constraint violation on `isbn`
surfaces from `CreateBook` as the `Conflict` kind.  The service wraps the
repository error as `fmt.Errorf("repository error: %w", err)` and never
consults `ErrConflict`: creating a second book with `duneRow`'s ISBN returns
an error wrapping `ErrDuplicateISBN`, which does not match `ErrConflict`
under `errors.Is` (it still matches the repository's `ErrDuplicateISBN`). -/
theorem createBook_duplicate_isbn_not_conflict :
    svcCreateBook (pgRepo 100) db1
      { title := "Dune Messiah", author := "Herbert", published := "1969-10-15",
        isbn := "978-0-441-01359-3", pages := 331 } =
      .error (.wrap .duplicateISBN) ∧
    errorsIs (.wrap .duplicateISBN) .conflict = false ∧
    errorsIs (.wrap .duplicateISBN) .duplicateISBN = true :=
  ⟨rfl, by decide, by decide⟩

/-- Every error matches itself under `errors.Is`. -/
theorem errorsIs_self (e : GoErr) : errorsIs e e = true := by
  cases e <;> simp [errorsIs]

/-- C7.  For `id ≤ 0`, `BookService.GetByBookID` fails for every repository
and every store state — so no repository call is made — but the error it
returns wraps the repository sentinel `ErrInvalidData`, which does not match
`ErrInvalidInput` (the claim's kind); it matches `ErrInvalidData`. -/
theorem getByBookID_nonpositive_id_invalidData {σ : Type} (repo : RepoAPI σ)
    (st : σ) (id : Int) (h : id ≤ 0) :
    svcGetByBookID repo st id = .error (.wrap .invalidData) ∧
    errorsIs (.wrap .invalidData) .invalidInput = false ∧
    errorsIs (.wrap .invalidData) .invalidData = true := by
  refine ⟨?_, by decide, by decide⟩
  simp [svcGetByBookID, h]

/-- Witness for C7: at `id = 0` over the Postgres repository on `db1`. -/
theorem getByBookID_nonpositive_id_invalidData_witness :
    svcGetByBookID (pgRepo 0) db1 0 = .error (.wrap .invalidData) :=
  (getByBookID_nonpositive_id_invalidData (pgRepo 0) db1 0 (by decide)).1

/-- C8.  For every create request with `pages < 5`, `BookService.CreateBook`
returns an error matching `ErrInvalidInput`, uniformly for every repository
and every store state — the repository's `createBook` is never consulted and
no state is produced, so no row is persisted. -/
theorem createBook_pages_lt_5_invalidInput {σ : Type} (repo : RepoAPI σ)
    (st : σ) (req : BookCreateRequest) (h : req.pages < 5) :
    svcCreateBook repo st req = .error (.wrap .invalidInput) ∧
    errorsIs (.wrap .invalidInput) .invalidInput = true := by
  refine ⟨?_, by decide⟩
  unfold svcCreateBook
  cases hv : validateBookCreateRequest req with
  | some m => rfl
  | none => simp [bookOfCreateRequest, h]

/-- Witness for C8: a 4-page request over the Postgres repository on the
empty table. -/
theorem createBook_pages_lt_5_invalidInput_witness :
    svcCreateBook (pgRepo 0) { rows := [], nextId := 1 }
      { title := "Tiny", author := "A", published := "2020-01-01",
        isbn := "978-0-13-468599-1", pages := 4 } =
      .error (.wrap .invalidInput) :=
  (createBook_pages_lt_5_invalidInput (pgRepo 0) { rows := [], nextId := 1 }
    { title := "Tiny", author := "A", published := "2020-01-01",
      isbn := "978-0-13-468599-1", pages := 4 } (by decide)).1

/-- C9.  For `page < 1` and `pageSize` outside `[1,100]`,
`BookService.FetchAllBook` silently corrects the arguments to `(1, 20)`
(with `20 ∈ [1,100]`) before consulting the repository — the call behaves
exactly like a call with `(1, 20)` — and over the Postgres repository the
result is a success, never an `InvalidInput` error. -/
theorem fetchAllBook_clamps_invalid_pagination {σ : Type} (repo : RepoAPI σ)
    (st : σ) (page pageSize : Int) (h1 : page < 1)
    (h2 : pageSize < 1 ∨ pageSize > 100) :
    clampPage page = 1 ∧ clampPageSize pageSize = 20 ∧
    (1 ≤ clampPageSize pageSize ∧ clampPageSize pageSize ≤ 100) ∧
    svcFetchAllBook repo st page pageSize = svcFetchAllBook repo st 1 20 ∧
    ∀ (now : Int) (db : DB),
      ∃ r, svcFetchAllBook (pgRepo now) db page pageSize = .ok r := by
  have hp : clampPage page = 1 := by simp [clampPage, h1]
  have hs : clampPageSize pageSize = 20 := by
    unfold clampPageSize
    rcases h2 with h | h <;> simp [h]
  refine ⟨hp, hs, by rw [hs]; exact ⟨by norm_num, by norm_num⟩, ?_, ?_⟩
  · unfold svcFetchAllBook
    rw [hp, hs]
    rfl
  · intro now db
    unfold svcFetchAllBook
    rw [hp, hs]
    exact ⟨_, rfl⟩

/-- Witness for C9: `page = 0`, `pageSize = 200` behave as `(1, 20)`. -/
theorem fetchAllBook_clamps_invalid_pagination_witness :
    svcFetchAllBook (pgRepo 0) db1 0 200 = svcFetchAllBook (pgRepo 0) db1 1 20 :=
  (fetchAllBook_clamps_invalid_pagination (pgRepo 0) db1 0 200 (by decide)
    (Or.inr (by decide))).2.2.2.1

/-- C10.  When the existence check of `BookService.DeleteBook` succeeds but
the repository delete then reports `ErrBookNotFound`, the service returns
`fmt.Errorf("repository error: %w", err)` — an error that does not match
`services.ErrNotFound` — whereas on the `GetByBookID` and `UpdateBook`
paths a repository `ErrBookNotFound` is translated into `ErrNotFound`. -/
theorem deleteBook_race_not_translated {σ : Type} (repo : RepoAPI σ) (st : σ)
    (id : Int) (b : Book) (hid : 0 < id)
    (hget : repo.getByBookID st id = .ok b)
    (hdel : repo.deleteBook st id = .error .bookNotFound) :
    svcDeleteBook repo st id = .error (.wrap .bookNotFound) ∧
    errorsIs (.wrap .bookNotFound) .notFound = false ∧
    (∀ {σ2 : Type} (repo2 : RepoAPI σ2) (st2 : σ2) (id2 : Int), 0 < id2 →
      repo2.getByBookID st2 id2 = .error .bookNotFound →
      svcGetByBookID repo2 st2 id2 = .error .notFound ∧
      (∀ req, validateBookUpdateRequest req = none →
        svcUpdateBook repo2 st2 id2 req = .error .notFound)) := by
  refine ⟨?_, by decide, ?_⟩
  · unfold svcDeleteBook
    rw [if_neg (by omega), hget, hdel]
  · intro σ2 repo2 st2 id2 hid2 hget2
    constructor
    · unfold svcGetByBookID
      rw [if_neg (by omega), hget2]
      simp [errorsIs]
    · intro req hreq
      unfold svcUpdateBook
      rw [if_neg (by omega), hreq, hget2]
      simp [errorsIs]

/-- A repository state in which the record is still visible to the existence
check but the subsequent delete statement affects zero rows (the row
disappeared between the two calls). -/
def vanishRepo : RepoAPI Unit :=
  { createBook := fun _ _ => .error (.plain "unused"),
    getByBookID := fun _ _ => .ok duneRow.toBook,
    fetchAllBook := fun _ _ _ => .ok ([], 0),
    updateBook := fun st b => .ok (st, b),
    deleteBook := fun _ _ => .error .bookNotFound }

/-- Witness for C10: the vanished-record interleaving at `id = 1`. -/
theorem deleteBook_race_not_translated_witness :
    svcDeleteBook vanishRepo () 1 = .error (.wrap .bookNotFound) :=
  (deleteBook_race_not_translated vanishRepo () 1 duneRow.toBook (by decide)
    rfl rfl).1

/-- An error wrapped with `%w` still matches the wrapped error under
`errors.Is`. -/
theorem errorsIs_wrap_self (e : GoErr) : errorsIs (GoErr.wrap e) e = true := by
  simp [errorsIs, errorsIs_self]

/-- The repository's opaque storage failure for the list path
(`fmt.Errorf("failed to count books: %s", err.Error())`). -/
def storageErr : GoErr := .plain "failed to count books: connection refused"

/-- A repository whose storage engine is down: every method reports the
generic storage error. -/
def storageFailRepo : RepoAPI Unit :=
  { createBook := fun _ _ => .error storageErr,
    getByBookID := fun _ _ => .error storageErr,
    fetchAllBook := fun _ _ _ => .error storageErr,
    updateBook := fun _ _ => .error storageErr,
    deleteBook := fun _ _ => .error storageErr }

/-- C6, counterexample.  The claim says no repository-specific error value is
ever part of the service's returned error.  But when the repository's list
fetch fails with the generic storage error, `BookService.FetchAllBook`
returns `fmt.Errorf("repository error: %w", err)`: the repository's error
value sits inside the returned error and still matches under `errors.Is`. -/
theorem repo_error_crosses_service_boundary :
    svcFetchAllBook storageFailRepo () 1 20 = .error (.wrap storageErr) ∧
    errorsIs (.wrap storageErr) storageErr = true :=
  ⟨rfl, errorsIs_wrap_self storageErr⟩

/-- C6, amended.  What the service actually guarantees at its boundary: a
repository `ErrBookNotFound` observed by the load step of `GetByBookID`,
`UpdateBook`, or `DeleteBook` is translated into the service's
`ErrNotFound`; but on every repository-call failure path of every operation
— create (where `ErrDuplicateISBN` arises), a non-`ErrBookNotFound` load
failure, list, the update persist step, and the delete step — the
repository's error is returned wrapped with `%w`, so the repository error
value remains matchable inside the service's returned error; and the
`id ≤ 0` guard of `GetByBookID` returns the repository sentinel
`ErrInvalidData` itself. -/
theorem service_error_boundary_amended {σ : Type} (repo : RepoAPI σ) (st : σ)
    (id : Int) (hid : 0 < id) :
    (repo.getByBookID st id = .error .bookNotFound →
      svcGetByBookID repo st id = .error .notFound) ∧
    (∀ req, validateBookUpdateRequest req = none →
      repo.getByBookID st id = .error .bookNotFound →
      svcUpdateBook repo st id req = .error .notFound) ∧
    (repo.getByBookID st id = .error .bookNotFound →
      svcDeleteBook repo st id = .error .notFound) ∧
    (∀ req e, validateBookCreateRequest req = none →
      ¬(bookOfCreateRequest req).pages < 5 →
      repo.createBook st (bookOfCreateRequest req) = .error e →
      svcCreateBook repo st req = .error (.wrap e) ∧
      errorsIs (.wrap e) e = true) ∧
    (∀ e, repo.getByBookID st id = .error e → errorsIs e .bookNotFound = false →
      svcGetByBookID repo st id = .error (.wrap e) ∧
      errorsIs (.wrap e) e = true) ∧
    (∀ page pageSize e,
      repo.fetchAllBook st (clampPage page) (clampPageSize pageSize) = .error e →
      svcFetchAllBook repo st page pageSize = .error (.wrap e) ∧
      errorsIs (.wrap e) e = true) ∧
    (∀ req b e, validateBookUpdateRequest req = none →
      repo.getByBookID st id = .ok b →
      repo.updateBook st (mergeBook b req) = .error e →
      svcUpdateBook repo st id req = .error (.wrap e) ∧
      errorsIs (.wrap e) e = true) ∧
    (∀ b e, repo.getByBookID st id = .ok b →
      repo.deleteBook st id = .error e →
      svcDeleteBook repo st id = .error (.wrap e) ∧
      errorsIs (.wrap e) e = true) ∧
    (∀ (st2 : σ) (id2 : Int), id2 ≤ 0 →
      svcGetByBookID repo st2 id2 = .error (.wrap .invalidData) ∧
      errorsIs (.wrap .invalidData) .invalidData = true) := by
  refine ⟨?_, ?_, ?_, ?_, ?_, ?_, ?_, ?_, ?_⟩
  · intro h
    unfold svcGetByBookID
    rw [if_neg (by omega), h]
    simp [errorsIs]
  · intro req hval h
    unfold svcUpdateBook
    rw [if_neg (by omega), hval, h]
    simp [errorsIs]
  · intro h
    unfold svcDeleteBook
    rw [if_neg (by omega), h]
    simp [errorsIs]
  · intro req e hval h5 hcr
    refine ⟨?_, errorsIs_wrap_self e⟩
    unfold svcCreateBook
    rw [hval, if_neg h5, hcr]
  · intro e h hne
    refine ⟨?_, errorsIs_wrap_self e⟩
    unfold svcGetByBookID
    rw [if_neg (by omega), h]
    simp [hne]
  · intro page pageSize e h
    refine ⟨?_, errorsIs_wrap_self e⟩
    unfold svcFetchAllBook
    rw [h]
  · intro req b e hval hget hupd
    refine ⟨?_, errorsIs_wrap_self e⟩
    unfold svcUpdateBook
    rw [if_neg (by omega), hval, hget]
    simp [hupd]
  · intro b e hget hdel
    refine ⟨?_, errorsIs_wrap_self e⟩
    unfold svcDeleteBook
    rw [if_neg (by omega), hget, hdel]
  · intro st2 id2 h
    exact ⟨by simp [svcGetByBookID, h], by decide⟩

/-- Witness for the amended C6: the storage-failure repository at `id = 1`
leaks its generic storage error value through `GetByBookID`. -/
theorem service_error_boundary_amended_witness :
    svcGetByBookID storageFailRepo () 1 = .error (.wrap storageErr) :=
  ((service_error_boundary_amended storageFailRepo () 1
    (by decide)).2.2.2.2.1 storageErr rfl (by decide)).1

/-- `List.find?` over a list extended on the right with the one row whose id
matches, when no earlier row's id does. -/
theorem find?_append_singleton (l : List Row) (r : Row) (id : Int)
    (h : ∀ x ∈ l, x.id ≠ id) (hr : r.id = id) :
    (l ++ [r]).find? (fun x => x.id == id) = some r := by
  induction l with
  | nil => simp [List.find?, hr]
  | cons a l ih =>
    have ha : (a.id == id) = false := by
      simp only [beq_eq_false_iff_ne, ne_eq]
      exact h a (by simp)
    rw [List.cons_append, List.find?_cons_of_neg _ (by simp [ha])]
    exact ih (fun x hx => h x (by simp [hx]))

/-- Fetching the id of a row freshly appended with the next serial id, over
a well-formed table, returns exactly that row. -/
theorem getByBookID_append (db : DB) (r : Row) (hwf : db.WF)
    (hr : r.id = db.nextId) :
    Postgres.GetByBookID { rows := db.rows ++ [r], nextId := db.nextId + 1 }
      r.toBook.id = .ok r.toBook := by
  have h1 : r.toBook.id = r.id := rfl
  unfold Postgres.GetByBookID
  rw [h1, find?_append_singleton db.rows r r.id
      (fun x hx => by have := hwf.2 x hx; omega) rfl]

/-- C4.  Whenever `BookService.CreateBook` over the Postgres repository
succeeds (the request passed validation and the insert committed), an
immediate `BookService.GetByBookID` with the returned id over the new table
state yields exactly the created record, field for field, and the
server-assigned `created_at`/`updated_at` are at least the statement time
`now` of the call. -/
theorem create_then_get_roundtrip (db : DB) (hwf : db.WF) (now : Int)
    (req : BookCreateRequest) (db' : DB) (b : Book)
    (hc : svcCreateBook (pgRepo now) db req = .ok (db', b)) :
    svcGetByBookID (pgRepo now) db' b.id = .ok b ∧
    now ≤ b.createdAt ∧ now ≤ b.updatedAt := by
  obtain ⟨hn1, hn2⟩ := hwf
  unfold svcCreateBook at hc
  split at hc
  · exact absurd hc (by simp)
  · split at hc
    · exact absurd hc (by simp)
    · split at hc
      · exact absurd hc (by simp)
      · rename_i r heq
        simp only [Except.ok.injEq] at hc
        subst hc
        simp only [pgRepo] at heq
        unfold Postgres.CreateBook at heq
        split at heq
        · exact absurd heq (by simp)
        · simp only [Except.ok.injEq, Prod.mk.injEq] at heq
          obtain ⟨hdb, hb⟩ := heq
          subst hdb hb
          refine ⟨?_, le_refl now, le_refl now⟩
          have hid : ¬((Postgres.insertedRow db now (bookOfCreateRequest req)).toBook.id ≤ 0) := by
            have h2 : (Postgres.insertedRow db now (bookOfCreateRequest req)).toBook.id =
                db.nextId := rfl
            rw [h2]; omega
          unfold svcGetByBookID
          rw [if_neg hid]
          simp only [pgRepo]
          rw [getByBookID_append db (Postgres.insertedRow db now (bookOfCreateRequest req))
              ⟨hn1, hn2⟩ rfl]

/-- The create request of the spec's concrete scenario. -/
def duneCreateReq : BookCreateRequest :=
  { title := "Dune", author := "Herbert", published := "1965-08-01",
    isbn := "978-0-441-01359-3", pages := 412 }

/-- Witness for C4: creating the Dune record in the empty table at time 100
and immediately fetching id 1 returns the identical record with both
timestamps equal to 100. -/
theorem create_then_get_roundtrip_witness :
    svcGetByBookID (pgRepo 100)
      { rows := [{ id := 1, title := "Dune", author := "Herbert",
                   published := "1965-08-01", isbn := "978-0-441-01359-3",
                   pages := 412, createdAt := 100, updatedAt := 100,
                   deletedAt := none }],
        nextId := 2 }
      (1 : Int) =
      .ok { id := 1, title := "Dune", author := "Herbert",
            published := "1965-08-01", isbn := "978-0-441-01359-3",
            pages := 412, createdAt := 100, updatedAt := 100 } :=
  (create_then_get_roundtrip { rows := [], nextId := 1 } (by decide) 100
    duneCreateReq _ _ rfl).1

end BfApp
